import Mathlib

/-
Verification of the erlang-timerfd port driver (src/c_src/etimerfd.c)
against its natural-language specification.

The driver state is the C struct etimerfd {port, fd, ack_pending}; the
readiness-interest registration performed through driver_select is modelled
as an extra boolean field `selected` (true when ERL_DRV_READ interest is
currently registered for the descriptor owned by the handle; every
driver_select call in link the source uses data->fd as the event). Kernel
syscall outcomes (timerfd_create, timerfd_settime, timerfd_gettime, read)
are external inputs and appear as parameters of the embedded functions.
Replies written into the control reply buffer are modelled as
`Option Reply` (none when the source encodes no term into the buffer);
a C return of -1 from a control handler ("let it crash") is modelled by
the embedding returning `none` at the outer `Option`.

Numeric fields of emitted terms pass through the erl_format directive
`~i`, which pops a C int (32 bits) from the variadic arguments: the
64-bit values handed to it at the call sites (the uint64 count at line
330, the long timespec fields at lines 160-166 and 185-190) therefore
reach the term as their low 32 bits interpreted as a signed integer.
This conversion is modelled by `int32Of`.
-/

namespace Etimerfd

/-- State of the C struct etimerfd, with `selected` tracking whether
read-readiness interest is registered via driver_select for the owned
descriptor. -/
structure etimerfd where
  fd : Int
  ack_pending : Bool
  selected : Bool
  deriving DecidableEq, Repr

/-- A decoded itimerspec value: interval and initial value, each a
seconds/nanoseconds pair (read through ERL_INT_UVALUE, hence unsigned). -/
structure TimerSpec where
  interval_sec : Nat
  interval_nsec : Nat
  value_sec : Nat
  value_nsec : Nat
  deriving DecidableEq, Repr

/-- The value the erl_format directive `~i` turns a numeric argument
into: `~i` reads a C int (32 bits) from the variadic arguments, so a
64-bit value passed at the call sites in etimerfd.c is delivered as its
low 32 bits interpreted as a signed integer. -/
def int32Of (n : Nat) : Int :=
  if n % 2 ^ 32 < 2 ^ 31 then ((n % 2 ^ 32 : Nat) : Int)
  else ((n % 2 ^ 32 : Nat) : Int) - 2 ^ 32

/-- An itimerspec value as it appears in an emitted term, after each of
its four fields went through the `~i` int conversion. -/
structure WireSpec where
  interval_sec : Int
  interval_nsec : Int
  value_sec : Int
  value_nsec : Int
  deriving DecidableEq, Repr

/-- The term-level image of a kernel-reported itimerspec: every field
formatted with `~i` (etimerfd.c lines 160-166 and 185-190). -/
def wireOf (spec : TimerSpec) : WireSpec :=
  { interval_sec := int32Of spec.interval_sec,
    interval_nsec := int32Of spec.interval_nsec,
    value_sec := int32Of spec.value_sec,
    value_nsec := int32Of spec.value_nsec }

/-- A reply term encoded into the control reply buffer. -/
inductive Reply where
  | ok
  | okSpec (old : WireSpec)
  | error (msg : String)
  deriving DecidableEq, Repr

/-- An asynchronous notification pushed through driver_output. The
timeout payload is the C int produced by the `~i` conversion of the
uint64 expiration count (etimerfd.c line 330). -/
inductive Notif where
  | timeout (count : Int)
  | readError (msg : String)
  deriving DecidableEq, Repr

/-- Outcome of the 8-byte read of the expiration counter in ready_input:
either a full 8-byte read yielding the u64 count, or a short/failed read. -/
inductive ReadResult where
  | full (count : Nat)
  | short
  deriving DecidableEq, Repr

def CLOCK_REALTIME : Int := 0
def CLOCK_MONOTONIC : Int := 1
def TFD_TIMER_ABSTIME : Nat := 1

/-- The clockid computed by the strcmp chain in create_timer:
clock_monotonic and clock_realtime map to their Linux constants, anything
else leaves the initial value -1. -/
def clockidOf (atom : String) : Int :=
  if atom = "clock_monotonic" then CLOCK_MONOTONIC
  else if atom = "clock_realtime" then CLOCK_REALTIME
  else -1

/-- create_timer (etimerfd.c lines 92-129). `payload` is the result of
ei_x_decode_atom (none when decoding fails), `kfd` the return value of
timerfd_create. Returns none for the C return -1 (fatal, "let it crash");
otherwise the updated state and the reply encoded into the buffer (none
when nothing was encoded). -/
def create_timer (data : etimerfd) (payload : Option String) (kfd : Int) :
    Option (etimerfd × Option Reply) :=
  match payload with
  | none => some (data, none)
  | some atom =>
      if clockidOf atom ≠ -1 then
        if kfd < 0 then
          some ({ data with fd := kfd }, some (.error "timerfd_create failed"))
        else
          some ({ data with fd := kfd, selected := true }, some .ok)
      else
        none

/-- Decoded SetTime payload: the term may fail to decode at all
(ei_decode_term yields NULL), decode but not match the pattern
`\x7b\x7bA,B\x7d,\x7bC,D\x7d\x7d,E`, or match with a TimerSpec and the
atom bound to E (the absolute flag). -/
inductive SetTimePayload where
  | undecodable
  | nomatch
  | matched (spec : TimerSpec) (absAtom : String)
  deriving DecidableEq, Repr

/-- settime (etimerfd.c lines 131-174). `kres` is the outcome of
timerfd_settime (some old_value on success, none on failure). Returns
none for the C return -1 (undecodable term); otherwise the kernel call
that was issued, as (flags, new_value) (none when the kernel was not
called), and the reply encoded into the buffer. The handle state is not
touched by settime. -/
def settime (payload : SetTimePayload) (kres : Option TimerSpec) :
    Option (Option (Nat × TimerSpec) × Option Reply) :=
  match payload with
  | .undecodable => none
  | .nomatch => some (none, none)
  | .matched spec absAtom =>
      let flags := if absAtom = "true" then TFD_TIMER_ABSTIME else 0
      match kres with
      | some old => some (some (flags, spec), some (.okSpec (wireOf old)))
      | none => some (some (flags, spec), none)

/-- gettime (etimerfd.c lines 176-195). `kres` is the outcome of
timerfd_gettime; on success the current spec is wrapped in ok, on failure
nothing is encoded into the reply buffer. -/
def gettime (kres : Option TimerSpec) : Option Reply :=
  match kres with
  | some cur => some (.okSpec (wireOf cur))
  | none => none

/-- ack (etimerfd.c lines 198-215). -/
def ack (data : etimerfd) : etimerfd × Reply :=
  if data.ack_pending then
    ({ data with ack_pending := false, selected := true }, .ok)
  else
    (data, .error "ack not pending")

/-- start (etimerfd.c lines 231-248), successful allocation branch:
fd is initialised to the sentinel -1, ack_pending to false, and no
readiness interest is registered yet. -/
def start : etimerfd :=
  { fd := -1, ack_pending := false, selected := false }

/-- stop (etimerfd.c lines 250-262): under the guard `if(data->fd)` (true
exactly when fd is nonzero) it deselects and closes data->fd. The result
is the descriptor on which driver_select(off) and close were invoked, or
none when the guard skipped them. -/
def stop (data : etimerfd) : Option Int :=
  if data.fd ≠ 0 then some data.fd else none

/-- ready_input (etimerfd.c lines 312-345). `event` is the descriptor of
the readiness event, `r` the outcome of the 8-byte read. Returns the
updated state and the notification pushed through driver_output (at most
one per invocation). -/
def ready_input (data : etimerfd) (event : Int) (r : ReadResult) :
    etimerfd × Option Notif :=
  if event = data.fd then
    match r with
    | .full count =>
        ({ data with ack_pending := true, selected := false },
         some (.timeout (int32Of count)))
    | .short =>
        (data, some (.readError "incorrect read size"))
  else
    (data, none)

/-- A control command together with the external inputs (decoded payload,
kernel outcome) that determine its behaviour. -/
inductive Cmd where
  | createC (payload : Option String) (kfd : Int)
  | settimeC (payload : SetTimePayload) (kres : Option TimerSpec)
  | gettimeC (kres : Option TimerSpec)
  | ackC
  deriving DecidableEq, Repr

/-- One event delivered to the handle: a dispatched control command, or a
readiness callback for descriptor `eventFd` with read outcome `r`. -/
inductive Ev where
  | cmd (c : Cmd)
  | ready (eventFd : Int) (r : ReadResult)
  deriving DecidableEq, Repr

/-- One step of the handle: dispatch the event through the corresponding
source function. Returns none when the source returns -1 (the port is
taken down, "let it crash"); otherwise the new state and the notification
pushed by driver_output during the step (commands push none; their reply
travels through the control reply buffer instead). -/
def step (s : etimerfd) (e : Ev) : Option (etimerfd × Option Notif) :=
  match e with
  | .cmd (.createC p kfd) =>
      match create_timer s p kfd with
      | none => none
      | some (s1, _) => some (s1, none)
  | .cmd (.settimeC p kres) =>
      match settime p kres with
      | none => none
      | some _ => some (s, none)
  | .cmd (.gettimeC _) => some (s, none)
  | .cmd .ackC => some ((ack s).1, none)
  | .ready efd r => some (ready_input s efd r)

/-- Host I/O contract for delivering an event in state `s`: the emulator
invokes ready_input for the currently owned descriptor only while read
interest is registered for it (driver_select semantics); events for other
descriptors (stale ones) may arrive at any time. Commands are always
deliverable. -/
def hostOK (s : etimerfd) : Ev → Bool
  | .ready efd _ => if efd = s.fd then s.selected else true
  | .cmd _ => true

/-- True when the event is not a successful Create dispatched while
ack_pending is true (a recognised clock atom together with a nonnegative
kernel descriptor). -/
def gateSafeCmd (s : etimerfd) : Ev → Bool
  | .cmd (.createC (some atom) kfd) =>
      if clockidOf atom = -1 then true
      else if kfd < 0 then true
      else !s.ack_pending
  | _ => true

/-- Every readiness event of the trace respects the host I/O contract at
the state in which it is delivered; a fatal step ends the trace. -/
def validRun (s : etimerfd) : List Ev → Bool
  | [] => true
  | e :: evs =>
      hostOK s e &&
      match step s e with
      | none => true
      | some (s1, _) => validRun s1 evs

/-- No successful Create is dispatched while ack_pending is true anywhere
along the trace. -/
def noCreateWhileAck (s : etimerfd) : List Ev → Bool
  | [] => true
  | e :: evs =>
      gateSafeCmd s e &&
      match step s e with
      | none => true
      | some (s1, _) => noCreateWhileAck s1 evs

/-- True when the pushed notification is a timeout notification. -/
def isTimeout : Option Notif → Bool
  | some (.timeout _) => true
  | _ => false

/-- True when some step of the trace pushes a timeout notification from a
state whose ack_pending flag is already true (a second notification
delivered while an acknowledgment is outstanding). -/
def gateViolated (s : etimerfd) : List Ev → Bool
  | [] => false
  | e :: evs =>
      match step s e with
      | none => false
      | some (s1, n) =>
          (s.ack_pending && isTimeout n) || gateViolated s1 evs

/-- The ack-gate invariant of the handle: readiness interest is never
registered while ack_pending is true. -/
def Inv (s : etimerfd) : Bool :=
  !s.ack_pending || !s.selected

theorem int32Of_eq_of_lt (n : Nat) (h : n < 2 ^ 31) : int32Of n = n := by
  rw [int32Of]
  split <;> omega

theorem int32Of_eq_self_iff (n : Nat) : int32Of n = n ↔ n < 2 ^ 31 := by
  rw [int32Of]
  split <;> omega

theorem step_preserves_Inv (s : etimerfd) (e : Ev) (s1 : etimerfd)
    (n : Option Notif) (hInv : Inv s = true) (hsafe : gateSafeCmd s e = true)
    (hstep : step s e = some (s1, n)) : Inv s1 = true := by
  cases e with
  | cmd c =>
    cases c with
    | createC p kfd =>
      cases p with
      | none =>
        simp only [step, create_timer, Option.some.injEq, Prod.mk.injEq]
          at hstep
        rcases hstep with ⟨rfl, -⟩
        exact hInv
      | some atom =>
        by_cases hclk : clockidOf atom = -1
        · simp [step, create_timer, hclk] at hstep
        · by_cases hkfd : kfd < 0
          · simp only [step, create_timer, hclk, hkfd, if_true, if_false,
              ite_false, ite_true, ne_eq, not_false_iff,
              Option.some.injEq, Prod.mk.injEq] at hstep
            rcases hstep with ⟨rfl, -⟩
            simpa [Inv] using hInv
          · simp only [gateSafeCmd, hclk, hkfd, if_false, ite_false,
              Bool.not_eq_true'] at hsafe
            simp only [step, create_timer, hclk, hkfd, if_true, if_false,
              ite_false, ite_true, ne_eq, not_false_iff,
              Option.some.injEq, Prod.mk.injEq] at hstep
            rcases hstep with ⟨rfl, -⟩
            simp [Inv, hsafe]
    | settimeC p kres =>
      simp only [step] at hstep
      cases hs : settime p kres with
      | none => simp [hs] at hstep
      | some v =>
        simp only [hs, Option.some.injEq, Prod.mk.injEq] at hstep
        rcases hstep with ⟨rfl, -⟩
        exact hInv
    | gettimeC kres =>
      simp only [step, Option.some.injEq, Prod.mk.injEq] at hstep
      rcases hstep with ⟨rfl, -⟩
      exact hInv
    | ackC =>
      by_cases hap : s.ack_pending
      · simp only [step, ack, hap, if_true, ite_true,
          Option.some.injEq, Prod.mk.injEq] at hstep
        rcases hstep with ⟨rfl, -⟩
        simp [Inv]
      · simp only [step, ack, hap, if_false, ite_false,
          Bool.false_eq_true, Option.some.injEq, Prod.mk.injEq] at hstep
        rcases hstep with ⟨rfl, -⟩
        exact hInv
  | ready efd r =>
    by_cases hefd : efd = s.fd
    · cases r with
      | full count =>
        simp only [step, ready_input, hefd, if_true, ite_true,
          Option.some.injEq, Prod.mk.injEq] at hstep
        rcases hstep with ⟨rfl, -⟩
        simp [Inv]
      | short =>
        simp only [step, ready_input, hefd, if_true, ite_true,
          Option.some.injEq, Prod.mk.injEq] at hstep
        rcases hstep with ⟨rfl, -⟩
        exact hInv
    · simp only [step, ready_input, hefd, if_false, ite_false,
        Option.some.injEq, Prod.mk.injEq] at hstep
      rcases hstep with ⟨rfl, -⟩
      exact hInv

theorem step_cmd_no_notif (s : etimerfd) (c : Cmd) (s1 : etimerfd)
    (n : Option Notif) (hstep : step s (Ev.cmd c) = some (s1, n)) :
    n = none := by
  cases c with
  | createC p kfd =>
    simp only [step] at hstep
    cases hc : create_timer s p kfd with
    | none => simp [hc] at hstep
    | some v =>
      simp only [hc, Option.some.injEq, Prod.mk.injEq] at hstep
      exact hstep.2.symm
  | settimeC p kres =>
    simp only [step] at hstep
    cases hs : settime p kres with
    | none => simp [hs] at hstep
    | some v =>
      simp only [hs, Option.some.injEq, Prod.mk.injEq] at hstep
      exact hstep.2.symm
  | gettimeC kres =>
    simp only [step, Option.some.injEq, Prod.mk.injEq] at hstep
    exact hstep.2.symm
  | ackC =>
    simp only [step, Option.some.injEq, Prod.mk.injEq] at hstep
    exact hstep.2.symm

theorem step_no_timeout_of_pending (s : etimerfd) (e : Ev) (s1 : etimerfd)
    (n : Option Notif) (hInv : Inv s = true) (hhost : hostOK s e = true)
    (hack : s.ack_pending = true) (hstep : step s e = some (s1, n)) :
    isTimeout n = false := by
  cases e with
  | cmd c =>
    have hn := step_cmd_no_notif s c s1 n hstep
    simp [hn, isTimeout]
  | ready efd r =>
    have hsel : s.selected = false := by
      simp only [Inv, hack, Bool.not_true, Bool.false_or,
        Bool.not_eq_true'] at hInv
      exact hInv
    by_cases hefd : efd = s.fd
    · rw [hostOK] at hhost
      simp [hefd, hsel] at hhost
    · simp only [step, ready_input, hefd, if_false, ite_false,
        Option.some.injEq, Prod.mk.injEq] at hstep
      rcases hstep with ⟨-, h2⟩
      simp [← h2, isTimeout]

/-- C1 (amended): for every handle state satisfying the ack-gate invariant
and every trace of readiness events and commands that respects the host
I/O contract, provided no successful Create is dispatched while
ack_pending is true, no timeout notification is ever pushed from a state
whose ack_pending flag is already true, regardless of how many kernel
expirations occur (each step pushes at most one notification by
construction of `step`). The proviso is forced: a successful Create
re-registers readiness interest without clearing ack_pending. -/
theorem c1_backpressure_amended (evs : List Ev) (s : etimerfd)
    (hInv : Inv s = true) (hvalid : validRun s evs = true)
    (hsafe : noCreateWhileAck s evs = true) :
    gateViolated s evs = false := by
  induction evs generalizing s with
  | nil => rfl
  | cons e evs ih =>
    simp only [validRun, Bool.and_eq_true] at hvalid
    simp only [noCreateWhileAck, Bool.and_eq_true] at hsafe
    obtain ⟨hhost, hvalid2⟩ := hvalid
    obtain ⟨hgate, hsafe2⟩ := hsafe
    cases hstep : step s e with
    | none => simp [gateViolated, hstep]
    | some p =>
      obtain ⟨s1, n⟩ := p
      rw [hstep] at hvalid2 hsafe2
      have hInv1 := step_preserves_Inv s e s1 n hInv hgate hstep
      have hrec := ih s1 hInv1 hvalid2 hsafe2
      simp only [gateViolated, hstep]
      cases hap : s.ack_pending with
      | false => simp [hrec]
      | true =>
        have hnt := step_no_timeout_of_pending s e s1 n hInv hhost hap hstep
        simp [hnt, hrec]

/-- C1 counterexample: the claim as stated quantifies over every sequence
of readiness events and commands. The trace create, readiness (timeout
pushed, ack_pending set), create again, readiness again respects the host
I/O contract (the second create re-registers read interest for the new
descriptor), yet its last step pushes a second timeout notification while
ack_pending is still true. -/
theorem c1_backpressure_counterexample :
    validRun start
      [Ev.cmd (Cmd.createC (some "clock_monotonic") 5),
       Ev.ready 5 (ReadResult.full 1),
       Ev.cmd (Cmd.createC (some "clock_monotonic") 6),
       Ev.ready 6 (ReadResult.full 3)] = true ∧
    gateViolated start
      [Ev.cmd (Cmd.createC (some "clock_monotonic") 5),
       Ev.ready 5 (ReadResult.full 1),
       Ev.cmd (Cmd.createC (some "clock_monotonic") 6),
       Ev.ready 6 (ReadResult.full 3)] = true := by
  exact ⟨by decide, by decide⟩

theorem c1_backpressure_amended_witness :
    Inv start = true ∧
    gateViolated start
      [Ev.cmd (Cmd.createC (some "clock_monotonic") 4),
       Ev.ready 4 (ReadResult.full 2),
       Ev.cmd Cmd.ackC,
       Ev.ready 4 (ReadResult.full 9)] = false :=
  ⟨by decide,
   c1_backpressure_amended
     [Ev.cmd (Cmd.createC (some "clock_monotonic") 4),
      Ev.ready 4 (ReadResult.full 2),
      Ev.cmd Cmd.ackC,
      Ev.ready 4 (ReadResult.full 9)]
     start (by decide) (by decide) (by decide)⟩

/-- C2 counterexample: the claim says the timeout notification carries
the read count; at count 2 ^ 31 the program builds the notification with
the erl_format int conversion and delivers -(2 ^ 31) instead. -/
theorem c2_armed_to_notified_counterexample :
    (ready_input { fd := 3, ack_pending := false, selected := true } 3
        (ReadResult.full (2 ^ 31))).2 ≠
      some (Notif.timeout ((2 ^ 31 : Nat) : Int)) := by
  decide

/-- C2 (amended): when the readiness callback fires on an armed handle
(ack_pending false, valid descriptor) for the owned descriptor and the
8-byte read returns the full count, the handle revokes read interest,
sets ack_pending, and pushes exactly one timeout notification carrying
the count truncated to a signed 32-bit integer by the erl_format int
conversion; the payload equals the read count whenever the count is
below 2 ^ 31. -/
theorem c2_armed_to_notified_amended (s : etimerfd) (count : Nat)
    (hack : s.ack_pending = false) (hfd : 0 ≤ s.fd) :
    ready_input s s.fd (ReadResult.full count) =
      ({ s with ack_pending := true, selected := false },
       some (Notif.timeout (int32Of count))) ∧
    (count < 2 ^ 31 → int32Of count = count) := by
  refine ⟨by simp [ready_input], fun hc => int32Of_eq_of_lt count hc⟩

theorem c2_armed_to_notified_amended_witness :
    ready_input { fd := 3, ack_pending := false, selected := true } 3
        (ReadResult.full 7) =
      ({ fd := 3, ack_pending := true, selected := false },
       some (Notif.timeout (int32Of 7))) ∧
    (7 < 2 ^ 31 → int32Of 7 = 7) :=
  c2_armed_to_notified_amended
    { fd := 3, ack_pending := false, selected := true } 7 rfl (by decide)

/-- C3: dispatching Ack with ack_pending true clears the flag,
re-registers read interest and replies ok; with ack_pending false it
replies error "ack not pending" and leaves the handle unchanged. -/
theorem c3_ack_semantics (s : etimerfd) :
    (s.ack_pending = true →
      ack s = ({ s with ack_pending := false, selected := true },
               Reply.ok)) ∧
    (s.ack_pending = false →
      ack s = (s, Reply.error "ack not pending")) := by
  constructor <;> intro h <;> simp [ack, h]

theorem c3_ack_semantics_witness :
    ack { fd := 3, ack_pending := true, selected := false } =
      ({ fd := 3, ack_pending := false, selected := true }, Reply.ok) :=
  (c3_ack_semantics { fd := 3, ack_pending := true, selected := false }).1
    rfl

/-- C4: on a short or failed read of the expiration counter, ready_input
pushes the error notification "incorrect read size" and leaves the handle
state entirely unchanged: read interest is not revoked and ack_pending is
not set. -/
theorem c4_short_read_frame (s : etimerfd) (efd : Int) (h : efd = s.fd) :
    ready_input s efd ReadResult.short =
      (s, some (Notif.readError "incorrect read size")) := by
  simp [ready_input, h]

theorem c4_short_read_frame_witness :
    ready_input { fd := 5, ack_pending := false, selected := true } 5
        ReadResult.short =
      ({ fd := 5, ack_pending := false, selected := true },
       some (Notif.readError "incorrect read size")) :=
  c4_short_read_frame { fd := 5, ack_pending := false, selected := true } 5
    rfl

/-- C5 counterexample: a Create payload that fails to decode as an atom
does not signal the fatal protocol error (the -1 return, modelled as
none): create_timer skips the whole body and returns the untouched state
with no reply term encoded. -/
theorem c5_create_decode_failure_counterexample :
    create_timer start none 0 ≠ none ∧
    create_timer start none 0 = some (start, none) := by
  exact ⟨by decide, rfl⟩

/-- C5 (amended): Create signals the fatal protocol error (returns -1,
modelled as none) exactly when the payload decodes to an atom outside the
recognised clock kinds; a payload that fails to decode as an atom is
instead silently ignored, producing no fatal error and no reply term. -/
theorem c5_create_amended (s : etimerfd) (atom : String) (kfd : Int) :
    (create_timer s (some atom) kfd = none ↔ clockidOf atom = -1) ∧
    create_timer s none kfd = some (s, none) := by
  refine ⟨?_, rfl⟩
  by_cases hclk : clockidOf atom = -1
  · simp [create_timer, hclk]
  · by_cases hkfd : kfd < 0 <;> simp [create_timer, hclk, hkfd]

theorem c5_create_amended_witness :
    (create_timer start (some "bogus") 0 = none ↔
      clockidOf "bogus" = -1) ∧
    create_timer start none 0 = some (start, none) :=
  c5_create_amended start "bogus" 0

/-- C6 counterexample: the claim says the success reply carries the
previous TimerSpec exactly as reported by the kernel; for a
kernel-reported value_sec of 2 ^ 31 the reply fields go through the
erl_format int conversion and the encoded spec differs from the
kernel-reported one. -/
theorem c6_settime_counterexample :
    settime (SetTimePayload.matched
        { interval_sec := 0, interval_nsec := 0,
          value_sec := 0, value_nsec := 0 } "false")
      (some { interval_sec := 0, interval_nsec := 0,
              value_sec := 2 ^ 31, value_nsec := 0 }) ≠
      some (some (0,
              { interval_sec := 0, interval_nsec := 0,
                value_sec := 0, value_nsec := 0 }),
            some (Reply.okSpec
              { interval_sec := 0, interval_nsec := 0,
                value_sec := ((2 ^ 31 : Nat) : Int),
                value_nsec := 0 })) := by
  decide

/-- C6 (amended): a well-shaped SetTime payload arms the timer with the
absolute flag TFD_TIMER_ABSTIME exactly when the flag atom is true and
with flags 0 (relative) otherwise, and on kernel success replies ok
paired with the kernel-reported previous TimerSpec (old, never the spec
just set) with each field truncated to a signed 32-bit integer by the
erl_format int conversion; the reply fields equal the kernel-reported
ones whenever every field is below 2 ^ 31. -/
theorem c6_settime_amended (spec : TimerSpec) (absAtom : String)
    (old : TimerSpec) :
    settime (SetTimePayload.matched spec absAtom) (some old) =
      some (some ((if absAtom = "true" then TFD_TIMER_ABSTIME else 0),
                  spec),
            some (Reply.okSpec (wireOf old))) ∧
    (old.interval_sec < 2 ^ 31 → old.interval_nsec < 2 ^ 31 →
     old.value_sec < 2 ^ 31 → old.value_nsec < 2 ^ 31 →
      wireOf old =
        { interval_sec := old.interval_sec,
          interval_nsec := old.interval_nsec,
          value_sec := old.value_sec,
          value_nsec := old.value_nsec }) := by
  refine ⟨rfl, fun h1 h2 h3 h4 => ?_⟩
  simp only [wireOf, WireSpec.mk.injEq]
  exact ⟨int32Of_eq_of_lt _ h1, int32Of_eq_of_lt _ h2,
         int32Of_eq_of_lt _ h3, int32Of_eq_of_lt _ h4⟩

theorem c6_settime_amended_witness :
    settime (SetTimePayload.matched
        { interval_sec := 1, interval_nsec := 2,
          value_sec := 3, value_nsec := 4 } "true")
      (some { interval_sec := 5, interval_nsec := 6,
              value_sec := 7, value_nsec := 8 }) =
      some (some ((if "true" = "true" then TFD_TIMER_ABSTIME else 0),
              { interval_sec := 1, interval_nsec := 2,
                value_sec := 3, value_nsec := 4 }),
            some (Reply.okSpec (wireOf
              { interval_sec := 5, interval_nsec := 6,
                value_sec := 7, value_nsec := 8 }))) ∧
    ((5 : Nat) < 2 ^ 31 → (6 : Nat) < 2 ^ 31 → (7 : Nat) < 2 ^ 31 →
     (8 : Nat) < 2 ^ 31 →
      wireOf { interval_sec := 5, interval_nsec := 6,
               value_sec := 7, value_nsec := 8 } =
        { interval_sec := 5, interval_nsec := 6,
          value_sec := 7, value_nsec := 8 }) :=
  c6_settime_amended
    { interval_sec := 1, interval_nsec := 2,
      value_sec := 3, value_nsec := 4 } "true"
    { interval_sec := 5, interval_nsec := 6,
      value_sec := 7, value_nsec := 8 }

/-- C7: when the kernel call underlying SetTime or GetTime fails, the
dispatcher encodes no reply term at all into the reply buffer (the reply
component is none), rather than a structured error reply. -/
theorem c7_missing_error_replies (spec : TimerSpec) (absAtom : String) :
    (settime (SetTimePayload.matched spec absAtom) none).map Prod.snd =
      some none ∧
    gettime none = none :=
  ⟨rfl, rfl⟩

/-- C8: the stop guard tests fd against 0, not against the sentinel -1
set by start, so on a never-created handle stop does invoke
driver_select(off) and close on descriptor -1 (and would skip releasing a
genuinely held descriptor 0), contradicting release-only-if-held. -/
theorem c8_close_guard_bug :
    start.fd = -1 ∧
    stop start = some (-1) ∧
    stop { fd := 0, ack_pending := false, selected := true } = none := by
  exact ⟨rfl, by decide, by decide⟩

/-- C9 counterexample: the claim says the timeout notification delivers
the full 64-bit expiration count without truncation; the program builds
the count term with the erl_format int conversion, so the counter value
2 ^ 63 + 5 is delivered as 5. -/
theorem c9_numeric_width_counterexample :
    (ready_input { fd := 3, ack_pending := false, selected := true } 3
        (ReadResult.full (2 ^ 63 + 5))).2 =
      some (Notif.timeout 5) ∧
    ((2 ^ 63 + 5 : Nat) : Int) ≠ 5 := by
  exact ⟨by decide, by decide⟩

/-- C9 (amended): the numeric fields of the emitted terms pass through
the erl_format int conversion, which reads a C int: the timeout
notification delivers the sign-extended low 32 bits of the 64-bit
expiration counter, and it equals the full counter value exactly when
the count is below 2 ^ 31. -/
theorem c9_numeric_width_amended (s : etimerfd) (count : Nat)
    (h : count < 2 ^ 64) :
    (ready_input s s.fd (ReadResult.full count)).2 =
      some (Notif.timeout (int32Of count)) ∧
    (int32Of count = count ↔ count < 2 ^ 31) := by
  exact ⟨by simp [ready_input], int32Of_eq_self_iff count⟩

theorem c9_numeric_width_amended_witness :
    7 < 2 ^ 64 ∧
    ((ready_input { fd := 3, ack_pending := false, selected := true } 3
        (ReadResult.full 7)).2 =
      some (Notif.timeout (int32Of 7)) ∧
     (int32Of 7 = 7 ↔ 7 < 2 ^ 31)) :=
  ⟨by decide,
   c9_numeric_width_amended
     { fd := 3, ack_pending := false, selected := true } 7 (by decide)⟩

/-- C10: a readiness event whose descriptor differs from the currently
owned descriptor produces no notification and leaves every field of the
handle state unchanged. -/
theorem c10_stale_event_guard (s : etimerfd) (efd : Int) (r : ReadResult)
    (h : efd ≠ s.fd) :
    ready_input s efd r = (s, none) := by
  simp [ready_input, h]

theorem c10_stale_event_guard_witness :
    ready_input { fd := 3, ack_pending := false, selected := true } 9
        ReadResult.short =
      ({ fd := 3, ack_pending := false, selected := true }, none) :=
  c10_stale_event_guard { fd := 3, ack_pending := false, selected := true }
    9 ReadResult.short (by decide)

end Etimerfd
